import Mathlib

/-!
Shallow embedding of the EBS snapshot lifecycle script
(ebs/snapshot/ebs-snapshot.py): the data model, the retention
evaluator is_snapshot_expired, the orchestrator (snapshot creation and
cleanup phases), list mode, and the process exit-code dispatch,
together with theorems about them.

Modelling conventions:
* Timestamps are integer epoch seconds; the script works at second
  granularity (timetuple() drops sub-second parts).
* time.mktime interprets a wall-clock tuple in the local timezone;
  under a fixed local offset this is the affine map t - offset, applied
  to both instants of the subtraction in is_snapshot_expired.
* The remote EC2 state is an explicit record threaded through the
  functions, and every mutating gateway call (create_snapshot,
  create_tags, delete_snapshot) is recorded in a call trace.
* Python int() is modelled on canonically written integer literals.
* sys.exit(n) inside a helper raises SystemExit, modelled as Err.exited;
  an uncaught Python exception is modelled as Err.raised.
* Snapshot identifiers returned by the provider are opaque fresh
  strings, modelled by the injective supply genSnapId.
-/

structure Tag where
  key : String
  value : String
deriving DecidableEq

structure Attachment where
  instanceId : String
  device : String
  state : String
deriving DecidableEq

structure Volume where
  volumeId : String
  snapshotId : String
  attachments : List Attachment
deriving DecidableEq

structure Snapshot where
  snapshotId : String
  volumeId : String
  description : String
  startTime : Int
deriving DecidableEq

/-- A snapshot record as assembled by describe_snapshots: the stored
snapshot together with its tags. -/
structure SnapshotInfo where
  snapshotId : String
  volumeId : String
  description : String
  startTime : Int
  tags : List Tag
deriving DecidableEq

inductive PyError where
  | nameError (name : String)
  | valueError (value : String)
deriving DecidableEq

inductive Err where
  | exited (code : Nat)
  | raised (e : PyError)
deriving DecidableEq

/-- Mutating gateway calls issued by the script. -/
inductive Call where
  | createSnapshotCall (volumeId description : String)
  | createTagsCall (resourceId key value : String)
  | deleteSnapshotCall (snapshotId : String)
deriving DecidableEq

/-- First tag with the given key, as the for/break loop of
is_snapshot_expired finds it (lines 244-247 of the script). -/
def find_tag (key : String) : List Tag → Option String
  | [] => none
  | t :: ts => if t.key == key then some t.value else find_tag key ts

def parse_digits : List Char → Nat → Option Nat
  | [], acc => some acc
  | c :: cs, acc =>
      if c.isDigit then parse_digits cs (acc * 10 + (c.toNat - '0'.toNat)) else none

/-- Model of Python int() applied to a tag value: an optional minus
sign followed by decimal digits.  Python additionally accepts
surrounding whitespace, a leading plus and underscore separators; those
variants do not occur in values the script itself writes. -/
def py_int (v : String) : Option Int :=
  match v.data with
  | [] => none
  | '-' :: cs =>
      match cs with
      | [] => none
      | _ => (parse_digits cs 0).map (fun n => -(n : Int))
  | cs => (parse_digits cs 0).map (fun n => (n : Int))

/-- Model of time.mktime on the timetuple of a UTC instant t (epoch
seconds): the tuple is interpreted in the local timezone, a fixed
offset from UTC. -/
def mktime_of_utc (offset t : Int) : Int := t - offset

/-- Lines 243-257 of the script.  now is the value of datetime.utcnow()
at the call (the code reads the ambient clock; it has no time
parameter).  On a snapshot without an ExpirationTime tag the code
evaluates the string concatenation in
logger.warning('Snapshot ' + snapshot_id + ...), and snapshot_id is
unbound in that scope, so a NameError is raised. -/
def is_snapshot_expired (offset now : Int) (info : SnapshotInfo) : Except PyError Bool :=
  match find_tag "ExpirationTime" info.tags with
  | none => Except.error (PyError.nameError "snapshot_id")
  | some v =>
    match py_int v with
    | none => Except.error (PyError.valueError v)
    | some e =>
        Except.ok (decide (mktime_of_utc offset now - mktime_of_utc offset info.startTime > e))

/-- The remote EC2 state: volumes (read-only to the script), snapshot
records, resource tags (instance fqdn tags and snapshot tags live in
the same store, as in EC2), the fresh-id counter, the current UTC clock
and today's date string (str(date.today())). -/
structure AWS where
  volumes : List Volume
  snapshots : List Snapshot
  resTags : List (String × Tag)
  nextSnapId : Nat
  clock : Int
  today : String
deriving DecidableEq

/-- Opaque fresh snapshot-id supply: an injective family of strings
standing for provider-generated identifiers. -/
def genSnapId (n : Nat) : String := String.mk ('s' :: List.replicate n 'p')

/-- describe_volumes(VolumeIds=[volume_id])['Volumes'][0]; a missing
volume is a ClientError, which the helper turns into sys.exit(1). -/
def get_volume_infos (s : AWS) (volume_id : String) : Except Err Volume :=
  match s.volumes.find? (fun v => v.volumeId == volume_id) with
  | some v => Except.ok v
  | none => Except.error (Err.exited 1)

/-- ec2.create_snapshot: records a snapshot started at the current
clock and returns its fresh id. -/
def create_snapshot (s : AWS) (tr : List Call) (volume_id description : String) :
    AWS × List Call × String :=
  let sid := genSnapId s.nextSnapId
  ({ s with
      snapshots := s.snapshots ++ [⟨sid, volume_id, description, s.clock⟩],
      nextSnapId := s.nextSnapId + 1 },
   tr ++ [Call.createSnapshotCall volume_id description], sid)

/-- describe_tags filtered on resource-id and key. -/
def tag_filter (l : List (String × Tag)) (rid key : String) : List Tag :=
  (l.filter (fun p => p.1 == rid && p.2.key == key)).map Prod.snd

def describe_tags_lookup (s : AWS) (rid key : String) : List Tag :=
  tag_filter s.resTags rid key

/-- Lines 146-171: the fqdn tag of the instance if present, else the
instance id itself. -/
def get_instance_hostname (s : AWS) (instance_id : String) : String :=
  match describe_tags_lookup s instance_id "fqdn" with
  | t :: _ => t.value
  | [] => instance_id

/-- ec2.create_tags semantics: setting an existing (resource, key)
overwrites its value, otherwise the tag is added. -/
def upsertTag : List (String × Tag) → String → String → String → List (String × Tag)
  | [], rid, key, value => [(rid, ⟨key, value⟩)]
  | p :: ps, rid, key, value =>
      if p.1 == rid && p.2.key == key then (rid, ⟨key, value⟩) :: ps
      else p :: upsertTag ps rid key value

def create_tag (s : AWS) (tr : List Call) (resource key value : String) : AWS × List Call :=
  ({ s with resTags := upsertTag s.resTags resource key value },
   tr ++ [Call.createTagsCall resource key value])

def seconds_in_day : Int := 60 * 60 * 24

/-- Lines 200-205: the attached instance id, or the literal "detached". -/
def attach_instance_id (v : Volume) : String :=
  match v.attachments with
  | a :: _ => a.instanceId
  | [] => "detached"

/-- Lines 200-205: the attachment device, or the volume id itself. -/
def attach_device (v : Volume) (volume_id : String) : String :=
  match v.attachments with
  | a :: _ => a.device
  | [] => volume_id

/-- Loop body of snapshot_volumes (lines 196-217), after the volume
record has been fetched. -/
def snapshot_one (e : Int) (s : AWS) (tr : List Call) (volume_id : String) (v : Volume) :
    AWS × List Call :=
  let instance_id := attach_instance_id v
  let volume_name := attach_device v volume_id
  let desc := volume_id ++ "-" ++ instance_id ++ "-backup-" ++ s.today
  let r1 := create_snapshot s tr volume_id desc
  let hostname := get_instance_hostname r1.1 instance_id
  let r2 := create_tag r1.1 r1.2.1 r1.2.2 "Name" (hostname ++ "-" ++ volume_name)
  let r3 := create_tag r2.1 r2.2 r1.2.2 "ExpirationTime" (toString (seconds_in_day * e))
  create_tag r3.1 r3.2 r1.2.2 "CreatedBy" "AutomatedBackup"

/-- Lines 194-217: the snapshot-creation phase over the volume list. -/
def snapshot_volumes (e : Int) : AWS → List Call → List String → AWS × List Call × Except Err Unit
  | s, tr, [] => (s, tr, Except.ok ())
  | s, tr, vid :: rest =>
    match get_volume_infos s vid with
    | Except.error err => (s, tr, Except.error err)
    | Except.ok v =>
        let p := snapshot_one e s tr vid v
        snapshot_volumes e p.1 p.2 rest

/-- The tags currently attached to a resource. -/
def snapshotTags (s : AWS) (rid : String) : List Tag :=
  (s.resTags.filter (fun p => p.1 == rid)).map Prod.snd

def toSnapshotInfo (s : AWS) (sn : Snapshot) : SnapshotInfo :=
  ⟨sn.snapshotId, sn.volumeId, sn.description, sn.startTime, snapshotTags s sn.snapshotId⟩

/-- The tag:CreatedBy = AutomatedBackup filter of describe_snapshots. -/
def created_by_backup (s : AWS) (sn : Snapshot) : Bool :=
  (snapshotTags s sn.snapshotId).any (fun t => t.key == "CreatedBy" && t.value == "AutomatedBackup")

/-- Lines 220-234: describe_snapshots filtered on volume-id in the
volume list and tag:CreatedBy = AutomatedBackup. -/
def get_snapshots_info (s : AWS) (volume_list : List String) : List SnapshotInfo :=
  (s.snapshots.filter
    (fun sn => volume_list.contains sn.volumeId && created_by_backup s sn)).map
    (toSnapshotInfo s)

def delete_snapshot (s : AWS) (tr : List Call) (snapshot_id : String) : AWS × List Call :=
  ({ s with snapshots := s.snapshots.filter (fun sn => !(sn.snapshotId == snapshot_id)) },
   tr ++ [Call.deleteSnapshotCall snapshot_id])

/-- Loop of cleanup_snapshots over the fetched snapshot list; an error
raised by is_snapshot_expired propagates uncaught. -/
def cleanup_loop (offset : Int) :
    AWS → List Call → List SnapshotInfo → AWS × List Call × Except Err Unit
  | s, tr, [] => (s, tr, Except.ok ())
  | s, tr, info :: rest =>
    match is_snapshot_expired offset s.clock info with
    | Except.error e => (s, tr, Except.error (Err.raised e))
    | Except.ok true =>
        let p := delete_snapshot s tr info.snapshotId
        cleanup_loop offset p.1 p.2 rest
    | Except.ok false => cleanup_loop offset s tr rest

/-- Lines 272-281: fetch the tool-owned snapshots of the target
volumes, then delete the expired ones. -/
def cleanup_snapshots (offset : Int) (s : AWS) (tr : List Call) (volume_list : List String) :
    AWS × List Call × Except Err Unit :=
  cleanup_loop offset s tr (get_snapshots_info s volume_list)

/-- The configuration the CLI layer hands to the core. -/
structure Args where
  volume_ids : Option (List String)
  expire_after : Int
  list_volumes : Bool
deriving DecidableEq

def get_volume_ids_list (s : AWS) : List String := s.volumes.map Volume.volumeId

/-- One output line of print_volumes_infos (lines 303-311). -/
def print_volume_line (v : Volume) : String :=
  let sid := if v.snapshotId.length == 0 then "No snapshot" else v.snapshotId
  match v.attachments with
  | a :: _ =>
      v.volumeId ++ "\t" ++ sid ++ "\t" ++ a.state ++ "\t" ++ a.instanceId ++ "\t" ++ a.device
  | [] => v.volumeId ++ "\t" ++ sid

/-- print_volumes_infos prints one line per volume and then calls
sys.exit(0). -/
def print_volumes_infos (s : AWS) : List String × Err :=
  (s.volumes.map print_volume_line, Err.exited 0)

/-- Model of list(set(xs)) on line 329: some duplicate-free enumeration
of the elements of xs (the order Python produces is unspecified). -/
def py_set_list : List String → List String
  | [] => []
  | x :: xs => if xs.contains x then py_set_list xs else x :: py_set_list xs

/-- Lines 327-328: an explicit volume-ids argument, or all volumes. -/
def resolve_volume_ids (args : Args) (s : AWS) : List String :=
  match args.volume_ids with
  | none => get_volume_ids_list s
  | some l => l

/-- The script body (lines 323-333): list mode exits via sys.exit(0)
before any other work; otherwise the resolved, deduplicated volume set
is snapshotted and then cleaned up.  Returns the final remote state,
the mutating-call trace, the printed lines and the ending. -/
def run_script (offset : Int) (args : Args) (s : AWS) :
    AWS × List Call × List String × Except Err Unit :=
  if args.list_volumes then
    let p := print_volumes_infos s
    (s, [], p.1, Except.error p.2)
  else
    let volume_ids_list := py_set_list (resolve_volume_ids args s)
    match snapshot_volumes args.expire_after s [] volume_ids_list with
    | (s1, tr1, Except.error e) => (s1, tr1, [], Except.error e)
    | (s1, tr1, Except.ok _) =>
        let c := cleanup_snapshots offset s1 tr1 volume_ids_list
        (c.1, c.2.1, [], c.2.2)

instance exceptDecEq {ε α : Type} [DecidableEq ε] [DecidableEq α] :
    DecidableEq (Except ε α) := fun a b =>
  match a, b with
  | Except.ok x, Except.ok y =>
      if h : x = y then isTrue (by rw [h])
      else isFalse (fun hh => h (by injection hh))
  | Except.error x, Except.error y =>
      if h : x = y then isTrue (by rw [h])
      else isFalse (fun hh => h (by injection hh))
  | Except.ok _, Except.error _ => isFalse (fun hh => Except.noConfusion hh)
  | Except.error _, Except.ok _ => isFalse (fun hh => Except.noConfusion hh)

inductive RunEnding where
  | finished (r : Except Err Unit)
  | interruptRaised
deriving DecidableEq

/-- Process exit code of the script: falling off the end exits 0; a
SystemExit raised by sys.exit(n) in a helper passes through both
handlers of lines 334-340 and exits with n; a KeyboardInterrupt is
caught and turned into sys.exit(1); any other exception is caught by
the except-Exception handler, logged, and re-raised (line 339), so the
interpreter terminates with its uncaught-exception status 1 - the
sys.exit(2) on line 340 is unreachable. -/
def script_exit_code : RunEnding → Nat
  | RunEnding.finished (Except.ok _) => 0
  | RunEnding.finished (Except.error (Err.exited n)) => n
  | RunEnding.finished (Except.error (Err.raised _)) => 1
  | RunEnding.interruptRaised => 1

/-- A string is fresh for the id supply at counter next if it is none
of genSnapId m for m at or beyond next.  Since genSnapId m has data
length m + 1, the only candidate index for rid is rid.data.length - 1. -/
def isFreshId (next : Nat) (rid : String) : Bool :=
  !(rid == genSnapId (rid.data.length - 1) && decide (next + 1 ≤ rid.data.length))

def awsIds (s : AWS) : List String :=
  s.resTags.map Prod.fst ++ s.snapshots.map Snapshot.snapshotId

/-- Every identifier already present in the state avoids the part of
the id supply that is still to be handed out. -/
def freshState (s : AWS) : Bool := (awsIds s).all (isFreshId s.nextSnapId)

/-- Number of create_snapshot calls for volume v in a trace. -/
def countCreates (v : String) (tr : List Call) : Nat :=
  (tr.filter (fun c =>
    match c with
    | Call.createSnapshotCall vid _ => vid == v
    | _ => false)).length

def isDeleteCall (c : Call) : Bool :=
  match c with
  | Call.deleteSnapshotCall _ => true
  | _ => false

/-- The exact tag list the creation phase attaches to a snapshot. -/
def threeTags (name expiration : String) : List Tag :=
  [⟨"Name", name⟩, ⟨"ExpirationTime", expiration⟩, ⟨"CreatedBy", "AutomatedBackup"⟩]

/-- Everything the creation phase guarantees about one snapshot it
created: its source volume resolves, its start time is the creation
clock, its description has the documented shape, and in the
phase-final state it carries exactly the three tags. -/
def CreatedSpec (e : Int) (s sFinal : AWS) (sn : Snapshot) : Prop :=
  ∃ v, get_volume_infos s sn.volumeId = Except.ok v ∧
    sn.startTime = s.clock ∧
    sn.description = sn.volumeId ++ "-" ++ attach_instance_id v ++ "-backup-" ++ s.today ∧
    snapshotTags sFinal sn.snapshotId =
      threeTags
        (get_instance_hostname s (attach_instance_id v) ++ "-" ++ attach_device v sn.volumeId)
        (toString (seconds_in_day * e))

/-- The snapshot record one pass of the creation loop adds. -/
def newSnapRecord (s : AWS) (vid : String) (v : Volume) : Snapshot :=
  ⟨genSnapId s.nextSnapId, vid,
   vid ++ "-" ++ attach_instance_id v ++ "-backup-" ++ s.today, s.clock⟩

/-- The three resource-tag entries one pass of the creation loop adds. -/
def newTagEntries (e : Int) (s : AWS) (vid : String) (v : Volume) : List (String × Tag) :=
  [(genSnapId s.nextSnapId,
     ⟨"Name", get_instance_hostname s (attach_instance_id v) ++ "-" ++ attach_device v vid⟩),
   (genSnapId s.nextSnapId, ⟨"ExpirationTime", toString (seconds_in_day * e)⟩),
   (genSnapId s.nextSnapId, ⟨"CreatedBy", "AutomatedBackup"⟩)]

/-- Concrete snapshot record with a parseable ExpirationTime tag. -/
def wTagSnap : SnapshotInfo := ⟨"snap-a", "vol-a", "desc-a", 0, [⟨"ExpirationTime", "10"⟩]⟩

/-- Concrete snapshot record without an ExpirationTime tag. -/
def wNoExpSnap : SnapshotInfo := ⟨"snap-b", "vol-b", "desc-b", 0, [⟨"CreatedBy", "AutomatedBackup"⟩]⟩

/-- Two concrete snapshot records agreeing on startTime and tags only. -/
def wDet1 : SnapshotInfo := ⟨"snap-c", "vol-c", "first-d", 0, []⟩

def wDet2 : SnapshotInfo := ⟨"snap-d", "vol-c", "second-d", 0, []⟩

/-- Concrete attached volume. -/
def wVolAtt : Volume := ⟨"vol-1", "", [⟨"i-1", "/dev/sda1", "attached"⟩]⟩

/-- Concrete detached volume. -/
def wVolDet : Volume := ⟨"vol-2", "", []⟩

/-- Concrete remote state holding one attached volume. -/
def wS4 : AWS := ⟨[wVolAtt], [], [], 0, 1000, "2024-01-01"⟩

/-- The snapshot the creation phase produces from wS4. -/
def wSn4 : Snapshot := ⟨"s", "vol-1", "vol-1-i-1-backup-2024-01-01", 1000⟩

/-- Concrete remote state holding one detached volume. -/
def wS10 : AWS := ⟨[wVolDet], [], [], 0, 1000, "2024-01-01"⟩

/-- Concrete remote state with one volume and one expired tagged snapshot. -/
def wS5 : AWS := ⟨[⟨"v1", "", []⟩], [⟨"old1", "v1", "old-desc", 0⟩],
  [("old1", ⟨"CreatedBy", "AutomatedBackup"⟩), ("old1", ⟨"ExpirationTime", "10"⟩)],
  0, 100, "2024-01-01"⟩

/-- Concrete remote state with two volumes and no snapshots. -/
def wS6 : AWS := ⟨[⟨"v1", "", []⟩, ⟨"v2", "", []⟩], [], [], 0, 1000, "2024-01-01"⟩

/-- Concrete remote state holding a tool-owned snapshot that lacks the
ExpirationTime tag. -/
def wS9 : AWS := ⟨[⟨"v1", "", []⟩], [⟨"old1", "v1", "old-desc", 0⟩],
  [("old1", ⟨"CreatedBy", "AutomatedBackup"⟩)], 0, 100, "2024-01-01"⟩

/-- Concrete remote state with two volumes, for list mode. -/
def wS8 : AWS := ⟨[wVolAtt, wVolDet], [], [], 0, 1000, "2024-01-01"⟩

theorem genSnapId_data (m : Nat) : (genSnapId m).data = 's' :: List.replicate m 'p' := rfl

theorem genSnapId_data_length (m : Nat) : (genSnapId m).data.length = m + 1 := by
  rw [genSnapId_data]
  simp

theorem isFreshId_ne (next m : Nat) (rid : String)
    (h : isFreshId next rid = true) (hm : next ≤ m) : rid ≠ genSnapId m := by
  intro he
  subst he
  rw [isFreshId, genSnapId_data_length] at h
  simp at h
  omega

theorem isFreshId_genSnapId (next m : Nat) (hm : m < next) :
    isFreshId next (genSnapId m) = true := by
  rw [isFreshId, genSnapId_data_length]
  simp
  omega

theorem isFreshId_mono (next next2 : Nat) (rid : String) (hle : next ≤ next2)
    (h : isFreshId next rid = true) : isFreshId next2 rid = true := by
  cases hb : (rid == genSnapId (rid.data.length - 1)) with
  | false =>
    rw [isFreshId, hb]
    simp
  | true =>
    rw [isFreshId, hb] at h ⊢
    simp at h ⊢
    omega

theorem freshState_spec (s : AWS) (h : freshState s = true) (rid : String)
    (hmem : rid ∈ awsIds s) : isFreshId s.nextSnapId rid = true := by
  rw [freshState, List.all_eq_true] at h
  exact h rid hmem

theorem mem_awsIds_resTags {s : AWS} {p : String × Tag} (hp : p ∈ s.resTags) :
    p.1 ∈ awsIds s := by
  rw [awsIds]
  exact List.mem_append_left _ (List.mem_map_of_mem _ hp)

theorem mem_awsIds_snapshots {s : AWS} {sn : Snapshot} (h : sn ∈ s.snapshots) :
    sn.snapshotId ∈ awsIds s := by
  rw [awsIds]
  exact List.mem_append_right _ (List.mem_map_of_mem _ h)

theorem freshState_resTags_ne (s : AWS) (h : freshState s = true) :
    ∀ p ∈ s.resTags, p.1 ≠ genSnapId s.nextSnapId := fun p hp =>
  isFreshId_ne _ _ _ (freshState_spec s h p.1 (mem_awsIds_resTags hp)) (Nat.le_refl _)

theorem upsertTag_eq_append (l : List (String × Tag)) (rid key value : String)
    (h : ∀ p ∈ l, ¬(p.1 = rid ∧ p.2.key = key)) :
    upsertTag l rid key value = l ++ [(rid, ⟨key, value⟩)] := by
  induction l with
  | nil => rfl
  | cons p ps ih =>
    have hp := h p (by simp)
    have hcond : (p.1 == rid && p.2.key == key) = false := by
      rcases Classical.em (p.1 = rid) with h1 | h1
      · have h2 : p.2.key ≠ key := fun hk => hp ⟨h1, hk⟩
        simp [h1, h2]
      · simp [h1]
    rw [upsertTag, hcond]
    simp only [Bool.false_eq_true, if_false, List.cons_append, List.cons.injEq, true_and]
    exact ih (fun q hq => h q (List.mem_cons_of_mem _ hq))

theorem filter_rid_nil (l : List (String × Tag)) (rid : String)
    (h : ∀ p ∈ l, p.1 ≠ rid) : l.filter (fun p => p.1 == rid) = [] := by
  rw [List.filter_eq_nil_iff]
  intro p hp
  simp [h p hp]

theorem snapshotTags_resTags (s1 s2 : AWS) (h : s1.resTags = s2.resTags) (rid : String) :
    snapshotTags s1 rid = snapshotTags s2 rid := by
  rw [snapshotTags, snapshotTags, h]

theorem get_instance_hostname_resTags (s1 s2 : AWS) (h : s1.resTags = s2.resTags)
    (iid : String) : get_instance_hostname s1 iid = get_instance_hostname s2 iid := by
  rw [get_instance_hostname, get_instance_hostname, describe_tags_lookup,
    describe_tags_lookup, h]

theorem tag_filter_append (l1 l2 : List (String × Tag)) (rid key : String) :
    tag_filter (l1 ++ l2) rid key = tag_filter l1 rid key ++ tag_filter l2 rid key := by
  rw [tag_filter, tag_filter, tag_filter, List.filter_append, List.map_append]

theorem tag_filter_nil_of_keys (l : List (String × Tag)) (rid key : String)
    (h : ∀ p ∈ l, p.2.key ≠ key) : tag_filter l rid key = [] := by
  rw [tag_filter]
  have h2 : l.filter (fun p => p.1 == rid && p.2.key == key) = [] := by
    rw [List.filter_eq_nil_iff]
    intro p hp
    simp [h p hp]
  rw [h2]
  rfl

theorem get_volume_infos_volumes (s1 s2 : AWS) (h : s1.volumes = s2.volumes) (vid : String) :
    get_volume_infos s1 vid = get_volume_infos s2 vid := by
  rw [get_volume_infos, get_volume_infos, h]

theorem snapshot_one_volumes (e : Int) (s : AWS) (tr : List Call) (vid : String) (v : Volume) :
    (snapshot_one e s tr vid v).1.volumes = s.volumes := by
  simp [snapshot_one, create_snapshot, create_tag]

theorem countCreates_append (w : String) (t1 t2 : List Call) :
    countCreates w (t1 ++ t2) = countCreates w t1 + countCreates w t2 := by
  simp [countCreates, List.filter_append]

theorem countCreates_snapshot_one (e : Int) (s : AWS) (tr : List Call) (vid : String)
    (v : Volume) (w : String) :
    countCreates w (snapshot_one e s tr vid v).2 =
      countCreates w tr + (if vid = w then 1 else 0) := by
  cases hb : (vid == w) with
  | false =>
    have hne : ¬vid = w := by simpa using hb
    simp [snapshot_one, create_snapshot, create_tag, countCreates, List.filter_append, hb, hne]
  | true =>
    have heq : vid = w := by simpa using hb
    simp [snapshot_one, create_snapshot, create_tag, countCreates, List.filter_append, hb, heq]

theorem snapshot_one_no_delete (e : Int) (s : AWS) (tr : List Call) (vid : String)
    (v : Volume) (c : Call) (hc : isDeleteCall c = true)
    (hmem : c ∈ (snapshot_one e s tr vid v).2) : c ∈ tr := by
  simp [snapshot_one, create_snapshot, create_tag] at hmem
  rcases hmem with h | h | h | h | h
  · exact h
  all_goals (subst h; simp [isDeleteCall] at hc)

theorem snapshot_one_spec (e : Int) (s : AWS) (tr : List Call) (vid : String) (v : Volume)
    (hfresh : ∀ p ∈ s.resTags, p.1 ≠ genSnapId s.nextSnapId) :
    (snapshot_one e s tr vid v).1 =
      { s with
          snapshots := s.snapshots ++ [newSnapRecord s vid v],
          nextSnapId := s.nextSnapId + 1,
          resTags := s.resTags ++ newTagEntries e s vid v } := by
  simp only [newSnapRecord, newTagEntries]
  have h1 : upsertTag s.resTags (genSnapId s.nextSnapId) "Name"
      (get_instance_hostname s (attach_instance_id v) ++ "-" ++ attach_device v vid) =
      s.resTags ++ [(genSnapId s.nextSnapId,
        ⟨"Name",
         get_instance_hostname s (attach_instance_id v) ++ "-" ++ attach_device v vid⟩)] :=
    upsertTag_eq_append _ _ _ _ (fun p hp h => hfresh p hp h.1)
  have h2 : ∀ val : String, upsertTag (s.resTags ++ [(genSnapId s.nextSnapId,
      ⟨"Name",
       get_instance_hostname s (attach_instance_id v) ++ "-" ++ attach_device v vid⟩)])
      (genSnapId s.nextSnapId) "ExpirationTime" val =
      s.resTags ++ [(genSnapId s.nextSnapId,
        ⟨"Name",
         get_instance_hostname s (attach_instance_id v) ++ "-" ++ attach_device v vid⟩),
       (genSnapId s.nextSnapId, ⟨"ExpirationTime", val⟩)] := by
    intro val
    rw [upsertTag_eq_append]
    · simp
    · intro p hp h
      rcases List.mem_append.mp hp with hmem | hmem
      · exact hfresh p hmem h.1
      · simp at hmem
        rw [hmem] at h
        simp at h
  have h3 : ∀ val : String, upsertTag (s.resTags ++ [(genSnapId s.nextSnapId,
      ⟨"Name",
       get_instance_hostname s (attach_instance_id v) ++ "-" ++ attach_device v vid⟩),
       (genSnapId s.nextSnapId, ⟨"ExpirationTime", toString (seconds_in_day * e)⟩)])
      (genSnapId s.nextSnapId) "CreatedBy" val =
      s.resTags ++ [(genSnapId s.nextSnapId,
        ⟨"Name",
         get_instance_hostname s (attach_instance_id v) ++ "-" ++ attach_device v vid⟩),
       (genSnapId s.nextSnapId, ⟨"ExpirationTime", toString (seconds_in_day * e)⟩),
       (genSnapId s.nextSnapId, ⟨"CreatedBy", val⟩)] := by
    intro val
    rw [upsertTag_eq_append]
    · simp
    · intro p hp h
      rcases List.mem_append.mp hp with hmem | hmem
      · exact hfresh p hmem h.1
      · simp at hmem
        rcases hmem with hm | hm <;> (rw [hm] at h; simp at h)
  have hhost : get_instance_hostname
      { s with
          snapshots := s.snapshots ++
            [⟨genSnapId s.nextSnapId, vid,
              vid ++ "-" ++ attach_instance_id v ++ "-backup-" ++ s.today, s.clock⟩],
          nextSnapId := s.nextSnapId + 1 } (attach_instance_id v) =
      get_instance_hostname s (attach_instance_id v) :=
    get_instance_hostname_resTags _ _ rfl _
  simp only [snapshot_one, create_snapshot, create_tag]
  simp only [hhost, h1, h2, h3]

theorem newTagEntries_fst (e : Int) (s : AWS) (vid : String) (v : Volume) :
    ∀ p ∈ newTagEntries e s vid v, p.1 = genSnapId s.nextSnapId := by
  intro p hp
  rw [newTagEntries] at hp
  simp at hp
  rcases hp with h | h | h <;> rw [h]

theorem newTagEntries_keys (e : Int) (s : AWS) (vid : String) (v : Volume) :
    ∀ p ∈ newTagEntries e s vid v, p.2.key ≠ "fqdn" := by
  intro p hp
  rw [newTagEntries] at hp
  simp at hp
  rcases hp with h | h | h <;> (rw [h]; simp)

theorem freshState_step (s t : AWS) (sn : Snapshot) (nt : List (String × Tag))
    (h : freshState s = true)
    (hres : t.resTags = s.resTags ++ nt)
    (hsnap : t.snapshots = s.snapshots ++ [sn])
    (hnext : t.nextSnapId = s.nextSnapId + 1)
    (hsn : sn.snapshotId = genSnapId s.nextSnapId)
    (hnt : ∀ p ∈ nt, p.1 = genSnapId s.nextSnapId) :
    freshState t = true := by
  rw [freshState, List.all_eq_true]
  intro rid hrid
  rw [awsIds, hres, hsnap] at hrid
  rw [List.map_append, List.map_append] at hrid
  rw [hnext]
  have hgen : isFreshId (s.nextSnapId + 1) (genSnapId s.nextSnapId) = true :=
    isFreshId_genSnapId _ _ (Nat.lt_succ_self _)
  rcases List.mem_append.mp hrid with hm | hm
  · rcases List.mem_append.mp hm with hm2 | hm2
    · rcases List.mem_map.mp hm2 with ⟨p, hp, hpe⟩
      rw [← hpe]
      exact isFreshId_mono _ _ _ (Nat.le_succ _)
        (freshState_spec s h p.1 (mem_awsIds_resTags hp))
    · rcases List.mem_map.mp hm2 with ⟨p, hp, hpe⟩
      rw [← hpe, hnt p hp]
      exact hgen
  · rcases List.mem_append.mp hm with hm2 | hm2
    · rcases List.mem_map.mp hm2 with ⟨q, hq, hqe⟩
      rw [← hqe]
      exact isFreshId_mono _ _ _ (Nat.le_succ _)
        (freshState_spec s h q.snapshotId (mem_awsIds_snapshots hq))
    · simp at hm2
      rw [hm2, hsn]
      exact hgen

theorem snapshotTags_step (s t : AWS) (nt : List (String × Tag)) (rid : String)
    (hres : t.resTags = s.resTags ++ nt)
    (h : ∀ p ∈ nt, p.1 ≠ rid) :
    snapshotTags t rid = snapshotTags s rid := by
  rw [snapshotTags, snapshotTags, hres, List.filter_append, filter_rid_nil nt rid h,
    List.append_nil]

theorem snapshotTags_head (e : Int) (s t : AWS) (vid : String) (v : Volume)
    (hres : t.resTags = s.resTags ++ newTagEntries e s vid v)
    (hfresh : ∀ p ∈ s.resTags, p.1 ≠ genSnapId s.nextSnapId) :
    snapshotTags t (genSnapId s.nextSnapId) =
      threeTags
        (get_instance_hostname s (attach_instance_id v) ++ "-" ++ attach_device v vid)
        (toString (seconds_in_day * e)) := by
  rw [snapshotTags, hres, List.filter_append, filter_rid_nil _ _ hfresh]
  simp [newTagEntries, threeTags]

theorem get_instance_hostname_append (s t : AWS) (nt : List (String × Tag))
    (hres : t.resTags = s.resTags ++ nt)
    (hk : ∀ p ∈ nt, p.2.key ≠ "fqdn") (iid : String) :
    get_instance_hostname t iid = get_instance_hostname s iid := by
  rw [get_instance_hostname, get_instance_hostname, describe_tags_lookup, describe_tags_lookup,
    hres, tag_filter_append, tag_filter_nil_of_keys _ _ _ hk, List.append_nil]

theorem CreatedSpec_transport (e : Int) (s t sF : AWS) (sn : Snapshot)
    (hvol : t.volumes = s.volumes) (hclock : t.clock = s.clock) (htoday : t.today = s.today)
    (hhost : ∀ iid, get_instance_hostname t iid = get_instance_hostname s iid)
    (h : CreatedSpec e t sF sn) : CreatedSpec e s sF sn := by
  obtain ⟨v, hv, hst, hdesc, htags⟩ := h
  refine ⟨v, ?_, ?_, ?_, ?_⟩
  · rw [← get_volume_infos_volumes t s hvol]
    exact hv
  · rw [hst, hclock]
  · rw [hdesc, htoday]
  · rw [htags, hhost]

theorem snapshot_volumes_spec (e : Int) (vols : List String) :
    ∀ (s : AWS) (tr : List Call) (s2 : AWS) (tr2 : List Call),
    freshState s = true →
    snapshot_volumes e s tr vols = (s2, tr2, Except.ok ()) →
    s2.volumes = s.volumes ∧ s2.clock = s.clock ∧ s2.today = s.today ∧
    s2.nextSnapId = s.nextSnapId + vols.length ∧
    freshState s2 = true ∧
    (∀ rid, isFreshId s.nextSnapId rid = true → snapshotTags s2 rid = snapshotTags s rid) ∧
    (∀ iid, get_instance_hostname s2 iid = get_instance_hostname s iid) ∧
    (∃ new, s2.snapshots = s.snapshots ++ new ∧ ∀ sn ∈ new, CreatedSpec e s s2 sn) := by
  induction vols with
  | nil =>
    intro s tr s2 tr2 hf h
    rw [snapshot_volumes] at h
    injection h with ha hb
    injection hb with hb1 hb2
    subst ha
    refine ⟨rfl, rfl, rfl, by simp, hf, fun rid _ => rfl, fun iid => rfl,
      ⟨[], by simp, by simp⟩⟩
  | cons vid rest ih =>
    intro s tr s2 tr2 hf h
    simp only [snapshot_volumes] at h
    cases hv : get_volume_infos s vid with
    | error err =>
      rw [hv] at h
      simp at h
    | ok v =>
      rw [hv] at h
      simp only at h
      have hfr := freshState_resTags_ne s hf
      have hspec := snapshot_one_spec e s tr vid v hfr
      set t := (snapshot_one e s tr vid v).1 with ht
      have hres : t.resTags = s.resTags ++ newTagEntries e s vid v := by rw [hspec]
      have hsnap : t.snapshots = s.snapshots ++ [newSnapRecord s vid v] := by rw [hspec]
      have hnext : t.nextSnapId = s.nextSnapId + 1 := by rw [hspec]
      have hvolumes : t.volumes = s.volumes := by rw [hspec]
      have hclock : t.clock = s.clock := by rw [hspec]
      have htoday : t.today = s.today := by rw [hspec]
      have hft : freshState t = true :=
        freshState_step s t (newSnapRecord s vid v) (newTagEntries e s vid v) hf hres hsnap
          hnext rfl (newTagEntries_fst e s vid v)
      obtain ⟨ihvol, ihclock, ihtoday, ihnext, ihfresh, ihstab, ihhost, new2, ihsnap, ihcs⟩ :=
        ih t ((snapshot_one e s tr vid v).2) s2 tr2 hft h
      have hhost_t : ∀ iid, get_instance_hostname t iid = get_instance_hostname s iid :=
        fun iid => get_instance_hostname_append s t _ hres (newTagEntries_keys e s vid v) iid
      refine ⟨ihvol.trans hvolumes, ihclock.trans hclock, ihtoday.trans htoday, ?_,
        ihfresh, ?_, fun iid => (ihhost iid).trans (hhost_t iid), ?_⟩
      · rw [ihnext, hnext]
        simp [List.length_cons]
        omega
      · intro rid hr
        have hrne : rid ≠ genSnapId s.nextSnapId := isFreshId_ne _ _ _ hr (Nat.le_refl _)
        have h1 : snapshotTags s2 rid = snapshotTags t rid :=
          ihstab rid (by rw [hnext]; exact isFreshId_mono _ _ _ (Nat.le_succ _) hr)
        have h2 : snapshotTags t rid = snapshotTags s rid := by
          refine snapshotTags_step s t _ rid hres ?_
          intro p hp
          rw [newTagEntries_fst e s vid v p hp]
          intro hgen
          exact hrne hgen.symm
        exact h1.trans h2
      · refine ⟨newSnapRecord s vid v :: new2, ?_, ?_⟩
        · rw [ihsnap, hsnap, List.append_assoc]
          rfl
        · intro sn hsn
          rcases List.mem_cons.mp hsn with hsn | hsn
          · subst hsn
            refine ⟨v, hv, rfl, rfl, ?_⟩
            have h1 : snapshotTags s2 (genSnapId s.nextSnapId) =
                snapshotTags t (genSnapId s.nextSnapId) :=
              ihstab _ (by rw [hnext]; exact isFreshId_genSnapId _ _ (Nat.lt_succ_self _))
            have h2 := snapshotTags_head e s t vid v hres hfr
            exact h1.trans h2
          · exact CreatedSpec_transport e s t s2 sn hvolumes hclock htoday hhost_t (ihcs sn hsn)

theorem snapshot_volumes_count (e : Int) (vols : List String) :
    ∀ (s : AWS) (tr : List Call) (s2 : AWS) (tr2 : List Call),
    snapshot_volumes e s tr vols = (s2, tr2, Except.ok ()) →
    ∀ w, countCreates w tr2 = countCreates w tr + vols.count w := by
  induction vols with
  | nil =>
    intro s tr s2 tr2 h w
    rw [snapshot_volumes] at h
    injection h with ha hb
    injection hb with hb1 hb2
    rw [← hb1]
    simp
  | cons vid rest ih =>
    intro s tr s2 tr2 h w
    simp only [snapshot_volumes] at h
    cases hv : get_volume_infos s vid with
    | error err =>
      rw [hv] at h
      simp at h
    | ok v =>
      rw [hv] at h
      simp only at h
      have := ih _ _ _ _ h w
      rw [this, countCreates_snapshot_one]
      rw [List.count_cons]
      simp only [beq_iff_eq]
      rcases Classical.em (vid = w) with hw | hw
      · simp [hw]
        omega
      · have hw2 : ¬w = vid := fun hh => hw hh.symm
        simp [hw, hw2]

theorem snapshot_volumes_no_delete (e : Int) (vols : List String) :
    ∀ (s : AWS) (tr : List Call) (s2 : AWS) (tr2 : List Call) (r : Except Err Unit),
    snapshot_volumes e s tr vols = (s2, tr2, r) →
    ∀ c, isDeleteCall c = true → c ∈ tr2 → c ∈ tr := by
  induction vols with
  | nil =>
    intro s tr s2 tr2 r h c hc hmem
    rw [snapshot_volumes] at h
    injection h with ha hb
    injection hb with hb1 hb2
    rw [← hb1] at hmem
    exact hmem
  | cons vid rest ih =>
    intro s tr s2 tr2 r h c hc hmem
    simp only [snapshot_volumes] at h
    cases hv : get_volume_infos s vid with
    | error err =>
      rw [hv] at h
      injection h with ha hb
      injection hb with hb1 hb2
      rw [← hb1] at hmem
      exact hmem
    | ok v =>
      rw [hv] at h
      simp only at h
      exact snapshot_one_no_delete e s tr vid v c hc (ih _ _ _ _ _ h c hc hmem)

theorem snapshot_volumes_ok (e : Int) (vols : List String) :
    ∀ (s : AWS) (tr : List Call),
    (∀ vid ∈ vols, ∃ v, get_volume_infos s vid = Except.ok v) →
    ∃ s2 tr2, snapshot_volumes e s tr vols = (s2, tr2, Except.ok ()) := by
  induction vols with
  | nil =>
    intro s tr _
    exact ⟨s, tr, rfl⟩
  | cons vid rest ih =>
    intro s tr hall
    obtain ⟨v, hv⟩ := hall vid (List.mem_cons_self vid rest)
    have hrest : ∀ w ∈ rest, ∃ u, get_volume_infos (snapshot_one e s tr vid v).1 w =
        Except.ok u := by
      intro w hw
      obtain ⟨u, hu⟩ := hall w (List.mem_cons_of_mem _ hw)
      refine ⟨u, ?_⟩
      rw [get_volume_infos_volumes _ s (snapshot_one_volumes e s tr vid v) w]
      exact hu
    obtain ⟨s2, tr2, hrun⟩ := ih (snapshot_one e s tr vid v).1 (snapshot_one e s tr vid v).2 hrest
    refine ⟨s2, tr2, ?_⟩
    simp only [snapshot_volumes, hv]
    exact hrun

theorem cleanup_loop_calls (offset : Int) (infos : List SnapshotInfo) :
    ∀ (s : AWS) (tr : List Call) (s2 : AWS) (tr2 : List Call) (r : Except Err Unit),
    cleanup_loop offset s tr infos = (s2, tr2, r) →
    ∀ c ∈ tr2, c ∈ tr ∨ ∃ info ∈ infos, c = Call.deleteSnapshotCall info.snapshotId := by
  induction infos with
  | nil =>
    intro s tr s2 tr2 r h c hc
    rw [cleanup_loop] at h
    injection h with ha hb
    injection hb with hb1 hb2
    rw [← hb1] at hc
    exact Or.inl hc
  | cons info rest ih =>
    intro s tr s2 tr2 r h c hc
    simp only [cleanup_loop] at h
    cases he : is_snapshot_expired offset s.clock info with
    | error err =>
      rw [he] at h
      injection h with ha hb
      injection hb with hb1 hb2
      rw [← hb1] at hc
      exact Or.inl hc
    | ok b =>
      rw [he] at h
      cases b with
      | false =>
        simp only at h
        rcases ih _ _ _ _ _ h c hc with hin | ⟨i2, hi2, he2⟩
        · exact Or.inl hin
        · exact Or.inr ⟨i2, List.mem_cons_of_mem _ hi2, he2⟩
      | true =>
        simp only [delete_snapshot] at h
        rcases ih _ _ _ _ _ h c hc with hin | ⟨i2, hi2, he2⟩
        · rcases List.mem_append.mp hin with hin2 | hin2
          · exact Or.inl hin2
          · simp at hin2
            exact Or.inr ⟨info, List.mem_cons_self _ _, hin2⟩
        · exact Or.inr ⟨i2, List.mem_cons_of_mem _ hi2, he2⟩

theorem cleanup_loop_countCreates (offset : Int) (infos : List SnapshotInfo) :
    ∀ (s : AWS) (tr : List Call) (s2 : AWS) (tr2 : List Call) (r : Except Err Unit),
    cleanup_loop offset s tr infos = (s2, tr2, r) →
    ∀ w, countCreates w tr2 = countCreates w tr := by
  induction infos with
  | nil =>
    intro s tr s2 tr2 r h w
    rw [cleanup_loop] at h
    injection h with ha hb
    injection hb with hb1 hb2
    rw [← hb1]
  | cons info rest ih =>
    intro s tr s2 tr2 r h w
    simp only [cleanup_loop] at h
    cases he : is_snapshot_expired offset s.clock info with
    | error err =>
      rw [he] at h
      injection h with ha hb
      injection hb with hb1 hb2
      rw [← hb1]
    | ok b =>
      rw [he] at h
      cases b with
      | false =>
        simp only at h
        exact ih _ _ _ _ _ h w
      | true =>
        simp only [delete_snapshot] at h
        rw [ih _ _ _ _ _ h w, countCreates_append]
        simp [countCreates]

theorem mem_get_snapshots_info (s : AWS) (vl : List String) (info : SnapshotInfo)
    (h : info ∈ get_snapshots_info s vl) :
    ∃ sn ∈ s.snapshots, sn.snapshotId = info.snapshotId ∧
      vl.contains sn.volumeId = true ∧ created_by_backup s sn = true := by
  rw [get_snapshots_info] at h
  rcases List.mem_map.mp h with ⟨sn, hsn, hinfo⟩
  rcases List.mem_filter.mp hsn with ⟨hmem, hcond⟩
  rw [Bool.and_eq_true] at hcond
  refine ⟨sn, hmem, ?_, hcond.1, hcond.2⟩
  rw [← hinfo]
  rfl

theorem contains_iff_mem_str (l : List String) (x : String) : l.contains x = true ↔ x ∈ l := by
  rw [List.contains]
  exact List.elem_iff

theorem mem_py_set_list (x : String) (l : List String) : x ∈ py_set_list l ↔ x ∈ l := by
  induction l with
  | nil => exact Iff.rfl
  | cons y ys ih =>
    rw [py_set_list]
    cases hc : ys.contains y with
    | false =>
      simp only [Bool.false_eq_true, if_false, List.mem_cons]
      rw [ih]
    | true =>
      simp only [if_true]
      rw [ih]
      have hy : y ∈ ys := (contains_iff_mem_str ys y).mp hc
      constructor
      · intro hx
        exact List.mem_cons_of_mem _ hx
      · intro hx
        rcases List.mem_cons.mp hx with hx | hx
        · rw [hx]
          exact hy
        · exact hx

theorem nodup_py_set_list (l : List String) : (py_set_list l).Nodup := by
  induction l with
  | nil => exact List.nodup_nil
  | cons y ys ih =>
    rw [py_set_list]
    cases hc : ys.contains y with
    | false =>
      simp only [Bool.false_eq_true, if_false]
      refine List.Nodup.cons ?_ ih
      intro hmem
      rw [mem_py_set_list] at hmem
      have hcon := (contains_iff_mem_str ys y).mpr hmem
      rw [hc] at hcon
      exact Bool.false_ne_true hcon
    | true =>
      simp only [if_true]
      exact ih

theorem count_py_set_list (x : String) (l : List String) :
    (py_set_list l).count x = if x ∈ l then 1 else 0 := by
  have hnd := nodup_py_set_list l
  rcases Classical.em (x ∈ l) with hx | hx
  · rw [if_pos hx]
    have hmem : x ∈ py_set_list l := (mem_py_set_list x l).mpr hx
    exact List.count_eq_one_of_mem hnd hmem
  · rw [if_neg hx]
    have hmem : ¬x ∈ py_set_list l := fun hm => hx ((mem_py_set_list x l).mp hm)
    exact List.count_eq_zero.mpr hmem

/-- C1: for every snapshot carrying an ExpirationTime tag whose value
parses as a non-negative integer of seconds, is_snapshot_expired
returns true if and only if now - creationTimestamp is strictly greater
than expirationSeconds; at exact equality the snapshot is not expired;
and the subtraction is the plain wall-clock difference of the two UTC
instants, for every local-timezone offset (the mktime conversion
applied to both instants cancels). -/
theorem expiration_strict_threshold (offset now : Int) (info : SnapshotInfo) (v : String)
    (e : Int) (htag : find_tag "ExpirationTime" info.tags = some v)
    (hparse : py_int v = some e) (_hnn : 0 ≤ e) :
    is_snapshot_expired offset now info = Except.ok (decide (now - info.startTime > e)) ∧
    (is_snapshot_expired offset now info = Except.ok true ↔ now - info.startTime > e) ∧
    (now - info.startTime = e → is_snapshot_expired offset now info = Except.ok false) := by
  have hval : mktime_of_utc offset now - mktime_of_utc offset info.startTime =
      now - info.startTime := by
    rw [mktime_of_utc, mktime_of_utc]
    ring
  have heq : is_snapshot_expired offset now info =
      Except.ok (decide (now - info.startTime > e)) := by
    simp only [is_snapshot_expired, htag, hparse, hval]
  refine ⟨heq, ?_, ?_⟩
  · rw [heq]
    constructor
    · intro hh
      injection hh with hh2
      exact of_decide_eq_true hh2
    · intro hh
      rw [decide_eq_true hh]
  · intro heqt
    rw [heq, heqt]
    simp

/-- C1 witness: at offset 3, now 10, a snapshot created at 0 with
ExpirationTime 10 is exactly at the boundary and not expired. -/
theorem expiration_strict_threshold_witness :
    is_snapshot_expired 3 10 wTagSnap =
      Except.ok (decide ((10 : Int) - wTagSnap.startTime > 10)) ∧
    (is_snapshot_expired 3 10 wTagSnap = Except.ok true ↔
      (10 : Int) - wTagSnap.startTime > 10) ∧
    ((10 : Int) - wTagSnap.startTime = 10 → is_snapshot_expired 3 10 wTagSnap = Except.ok false) :=
  expiration_strict_threshold 3 10 wTagSnap "10" 10 (by decide) (by decide) (by decide)

/-- C2: on a snapshot without an ExpirationTime tag the check does not
return false with a warning; it raises a NameError (the warning call on
line 250 reads the unbound name snapshot_id), which aborts the run.
The claim describes the intended behaviour; the code is in error. -/
theorem missing_expiration_tag_raises :
    is_snapshot_expired 0 100 wNoExpSnap = Except.error (PyError.nameError "snapshot_id") := by
  decide

/-- C3 counterexample: the expiration check consults the ambient wall
clock (datetime.utcnow() on line 254); its only explicit input is the
snapshot record, and with creation timestamp and tags fixed its result
still changes as the ambient clock advances from 5 to 20. -/
theorem expiration_check_reads_clock :
    is_snapshot_expired 0 5 wTagSnap ≠ is_snapshot_expired 0 20 wTagSnap := by
  decide

/-- C3 amended: the expiration check is deterministic in (creation
timestamp, tags, ambient clock reading, timezone offset): it depends on
no other field of the snapshot record.  But the current time is not a
parameter of the code; it is read from the ambient clock inside the
function. -/
theorem expiration_deterministic (offset now : Int) (i1 i2 : SnapshotInfo)
    (hst : i1.startTime = i2.startTime) (ht : i1.tags = i2.tags) :
    is_snapshot_expired offset now i1 = is_snapshot_expired offset now i2 := by
  simp only [is_snapshot_expired, hst, ht]

/-- C3 amended witness: two snapshot records differing in id and
description but agreeing on startTime and tags get the same verdict. -/
theorem expiration_deterministic_witness :
    is_snapshot_expired 0 5 wDet1 = is_snapshot_expired 0 5 wDet2 :=
  expiration_deterministic 0 5 wDet1 wDet2 rfl rfl

/-- C4: every snapshot created by the creation phase carries, in the
phase-final state (before cleanup begins), exactly the three tags
Name = instanceHostname-deviceLabel, ExpirationTime = the decimal
string of 86400 * expire-after-days, and CreatedBy = AutomatedBackup,
and its description and start time are the documented ones. -/
theorem creation_phase_tags_exact (e : Int) (vols : List String) (s s2 : AWS)
    (tr tr2 : List Call) (hf : freshState s = true)
    (hrun : snapshot_volumes e s tr vols = (s2, tr2, Except.ok ()))
    (sn : Snapshot) (hmem : sn ∈ s2.snapshots) (hnew : ¬sn ∈ s.snapshots) :
    CreatedSpec e s s2 sn := by
  obtain ⟨-, -, -, -, -, -, -, new, hsnap, hcs⟩ :=
    snapshot_volumes_spec e vols s tr s2 tr2 hf hrun
  rw [hsnap] at hmem
  rcases List.mem_append.mp hmem with hold | hmem2
  · exact absurd hold hnew
  · exact hcs sn hmem2

/-- C4 witness: the snapshot created for the attached volume of wS4 with
expire-after 30 carries exactly the three documented tags. -/
theorem creation_phase_tags_exact_witness :
    CreatedSpec 30 wS4 (snapshot_volumes 30 wS4 [] ["vol-1"]).1 wSn4 :=
  creation_phase_tags_exact 30 ["vol-1"] wS4 _ [] _ (by decide) rfl wSn4
    (by decide) (by decide)

/-- C7: every snapshot created by the creation phase has description
volumeId-instanceId-backup-today, where instanceId is the attached
instance id when the volume has an attachment and the literal
"detached" otherwise, and the device label is the attachment device
path when attached and the volume id itself when detached. -/
theorem snapshot_description_format (e : Int) (vols : List String) (s s2 : AWS)
    (tr tr2 : List Call) (hf : freshState s = true)
    (hrun : snapshot_volumes e s tr vols = (s2, tr2, Except.ok ()))
    (sn : Snapshot) (hmem : sn ∈ s2.snapshots) (hnew : ¬sn ∈ s.snapshots) :
    ∃ v, get_volume_infos s sn.volumeId = Except.ok v ∧
      sn.description = sn.volumeId ++ "-" ++ attach_instance_id v ++ "-backup-" ++ s.today ∧
      (v.attachments = [] → attach_instance_id v = "detached" ∧
        attach_device v sn.volumeId = sn.volumeId) ∧
      (∀ a as, v.attachments = a :: as → attach_instance_id v = a.instanceId ∧
        attach_device v sn.volumeId = a.device) := by
  obtain ⟨-, -, -, -, -, -, -, new, hsnap, hcs⟩ :=
    snapshot_volumes_spec e vols s tr s2 tr2 hf hrun
  rw [hsnap] at hmem
  rcases List.mem_append.mp hmem with hold | hmem2
  · exact absurd hold hnew
  · obtain ⟨v, hv, hst, hdesc, htags⟩ := hcs sn hmem2
    refine ⟨v, hv, hdesc, ?_, ?_⟩
    · intro hdet
      simp [attach_instance_id, attach_device, hdet]
    · intro a as hatt
      simp [attach_instance_id, attach_device, hatt]

/-- C7 witness: the snapshot created from wS4 (volume vol-1 attached to
instance i-1) on 2024-01-01 is described vol-1-i-1-backup-2024-01-01. -/
theorem snapshot_description_format_witness :
    ∃ v, get_volume_infos wS4 wSn4.volumeId = Except.ok v ∧
      wSn4.description =
        wSn4.volumeId ++ "-" ++ attach_instance_id v ++ "-backup-" ++ wS4.today ∧
      (v.attachments = [] → attach_instance_id v = "detached" ∧
        attach_device v wSn4.volumeId = wSn4.volumeId) ∧
      (∀ a as, v.attachments = a :: as → attach_instance_id v = a.instanceId ∧
        attach_device v wSn4.volumeId = a.device) :=
  snapshot_description_format 30 ["vol-1"] wS4 _ [] _ (by decide) rfl wSn4
    (by decide) (by decide)

/-- C10: when the creation phase processes a detached volume, the
hostname lookup is invoked with the literal string "detached" as the
instance id, and when no resource with id "detached" carries an fqdn
tag the created snapshot carries the Name tag detached-volumeId. -/
theorem detached_volume_name_tag (e : Int) (s : AWS) (tr : List Call) (vid : String)
    (v : Volume) (rest : List String) (s2 : AWS) (tr2 : List Call)
    (hf : freshState s = true)
    (hv : get_volume_infos s vid = Except.ok v)
    (hdet : v.attachments = [])
    (hfqdn : describe_tags_lookup s "detached" "fqdn" = [])
    (hrun : snapshot_volumes e s tr (vid :: rest) = (s2, tr2, Except.ok ())) :
    attach_instance_id v = "detached" ∧
    get_instance_hostname s (attach_instance_id v) = "detached" ∧
    find_tag "Name" (snapshotTags s2 (genSnapId s.nextSnapId)) =
      some ("detached-" ++ vid) := by
  have hiid : attach_instance_id v = "detached" := by
    simp only [attach_instance_id, hdet]
  have hhost : get_instance_hostname s "detached" = "detached" := by
    rw [get_instance_hostname, hfqdn]
  simp only [snapshot_volumes, hv] at hrun
  have hfr := freshState_resTags_ne s hf
  have hspec := snapshot_one_spec e s tr vid v hfr
  set t := (snapshot_one e s tr vid v).1 with ht
  have hres : t.resTags = s.resTags ++ newTagEntries e s vid v := by rw [hspec]
  have hsnap : t.snapshots = s.snapshots ++ [newSnapRecord s vid v] := by rw [hspec]
  have hnext : t.nextSnapId = s.nextSnapId + 1 := by rw [hspec]
  have hft : freshState t = true :=
    freshState_step s t _ _ hf hres hsnap hnext rfl (newTagEntries_fst e s vid v)
  obtain ⟨-, -, -, -, -, hstab, -, -⟩ :=
    snapshot_volumes_spec e rest t ((snapshot_one e s tr vid v).2) s2 tr2 hft hrun
  have h1 : snapshotTags s2 (genSnapId s.nextSnapId) =
      snapshotTags t (genSnapId s.nextSnapId) :=
    hstab _ (by rw [hnext]; exact isFreshId_genSnapId _ _ (Nat.lt_succ_self _))
  have h2 := snapshotTags_head e s t vid v hres hfr
  refine ⟨hiid, by rw [hiid]; exact hhost, ?_⟩
  rw [h1, h2, hiid, hhost]
  simp only [threeTags, find_tag, attach_device, hdet]
  simp

/-- C5: every snapshot id the run passes to delete_snapshot was
returned by the describe_snapshots query over the pre-cleanup state:
it belongs to a stored snapshot whose source volume is in the resolved
deduplicated target set and which carries the CreatedBy tag with value
AutomatedBackup at query time.  No snapshot whose CreatedBy tag is
absent or different is ever passed to delete_snapshot. -/
theorem cleanup_deletes_only_query_results (offset expire : Int) (vids : Option (List String))
    (s s2 : AWS) (tr2 : List Call) (out : List String) (r : Except Err Unit)
    (hrun : run_script offset ⟨vids, expire, false⟩ s = (s2, tr2, out, r))
    (sid : String) (hdel : Call.deleteSnapshotCall sid ∈ tr2) :
    ∃ sn ∈ ((snapshot_volumes expire s []
        (py_set_list (resolve_volume_ids ⟨vids, expire, false⟩ s))).1).snapshots,
      sn.snapshotId = sid ∧
      (py_set_list (resolve_volume_ids ⟨vids, expire, false⟩ s)).contains sn.volumeId = true ∧
      created_by_backup
        (snapshot_volumes expire s []
          (py_set_list (resolve_volume_ids ⟨vids, expire, false⟩ s))).1 sn = true := by
  simp only [run_script] at hrun
  rcases hc : snapshot_volumes expire s []
      (py_set_list (resolve_volume_ids ⟨vids, expire, false⟩ s)) with ⟨s1, tr1, rr⟩
  rw [if_neg (by decide : ¬(false = true)), hc] at hrun
  cases rr with
  | error err =>
    injection hrun with h1 hrest
    injection hrest with h2 hrest2
    have h0 := snapshot_volumes_no_delete expire _ s [] s1 tr1 _ hc
      (Call.deleteSnapshotCall sid) rfl (by rw [h2]; exact hdel)
    simp at h0
  | ok u =>
    cases u
    injection hrun with h1 hrest
    injection hrest with h2 hrest2
    have hcl : cleanup_loop offset s1 tr1
        (get_snapshots_info s1 (py_set_list (resolve_volume_ids ⟨vids, expire, false⟩ s))) =
        ((cleanup_snapshots offset s1 tr1
            (py_set_list (resolve_volume_ids ⟨vids, expire, false⟩ s))).1,
         (cleanup_snapshots offset s1 tr1
            (py_set_list (resolve_volume_ids ⟨vids, expire, false⟩ s))).2.1,
         (cleanup_snapshots offset s1 tr1
            (py_set_list (resolve_volume_ids ⟨vids, expire, false⟩ s))).2.2) := rfl
    have hcalls := cleanup_loop_calls offset _ s1 tr1 _ _ _ hcl
      (Call.deleteSnapshotCall sid) (by rw [h2]; exact hdel)
    rcases hcalls with hin | ⟨info, hinfo, heq⟩
    · have h0 := snapshot_volumes_no_delete expire _ s [] s1 tr1 _ hc
        (Call.deleteSnapshotCall sid) rfl hin
      simp at h0
    · injection heq with hsid
      obtain ⟨sn, hsn, hid, hcontains, hcb⟩ := mem_get_snapshots_info s1 _ info hinfo
      refine ⟨sn, hsn, ?_, hcontains, hcb⟩
      rw [hid, hsid]

/-- C5 witness: running on wS5 deletes the expired tool-owned snapshot
old1, and that deletion indeed targets a stored, queried, tagged
snapshot. -/
theorem cleanup_deletes_only_query_results_witness :
    ∃ sn ∈ ((snapshot_volumes 30 wS5 []
        (py_set_list (resolve_volume_ids ⟨some ["v1"], 30, false⟩ wS5))).1).snapshots,
      sn.snapshotId = "old1" ∧
      (py_set_list (resolve_volume_ids ⟨some ["v1"], 30, false⟩ wS5)).contains
        sn.volumeId = true ∧
      created_by_backup
        (snapshot_volumes 30 wS5 []
          (py_set_list (resolve_volume_ids ⟨some ["v1"], 30, false⟩ wS5))).1 sn = true :=
  cleanup_deletes_only_query_results 0 30 (some ["v1"]) wS5 _ _ _ _ rfl "old1" (by decide)

/-- C6: with an explicit volume-ids argument whose volumes all exist,
the resolved set is deduplicated before the creation phase, so the run
issues exactly one create_snapshot call per distinct requested volume
and none for any other volume. -/
theorem dedup_single_create_per_volume (offset expire : Int) (input : List String)
    (s s2 : AWS) (tr2 : List Call) (out : List String) (r : Except Err Unit)
    (hvols : ∀ vid ∈ input, ∃ v, get_volume_infos s vid = Except.ok v)
    (hrun : run_script offset ⟨some input, expire, false⟩ s = (s2, tr2, out, r))
    (w : String) :
    countCreates w tr2 = if w ∈ input then 1 else 0 := by
  have hvols2 : ∀ vid ∈ py_set_list input, ∃ v, get_volume_infos s vid = Except.ok v :=
    fun vid hvid => hvols vid ((mem_py_set_list vid input).mp hvid)
  obtain ⟨s1, tr1, hc⟩ := snapshot_volumes_ok expire (py_set_list input) s [] hvols2
  simp only [run_script, resolve_volume_ids] at hrun
  rw [if_neg (by decide : ¬(false = true)), hc] at hrun
  injection hrun with h1 hrest
  injection hrest with h2 hrest2
  rw [← h2]
  have hcl : cleanup_loop offset s1 tr1 (get_snapshots_info s1 (py_set_list input)) =
      ((cleanup_snapshots offset s1 tr1 (py_set_list input)).1,
       (cleanup_snapshots offset s1 tr1 (py_set_list input)).2.1,
       (cleanup_snapshots offset s1 tr1 (py_set_list input)).2.2) := rfl
  have hcount1 := cleanup_loop_countCreates offset _ s1 tr1 _ _ _ hcl w
  have hcount2 := snapshot_volumes_count expire (py_set_list input) s [] s1 tr1 hc w
  rw [hcount1, hcount2, count_py_set_list]
  simp [countCreates]

/-- C6 witness: running with volume-ids v1, v1, v2 issues exactly one
create_snapshot call for v1. -/
theorem dedup_single_create_per_volume_witness :
    countCreates "v1" (run_script 0 ⟨some ["v1", "v1", "v2"], 30, false⟩ wS6).2.1 =
      if "v1" ∈ ["v1", "v1", "v2"] then 1 else 0 :=
  dedup_single_create_per_volume 0 30 ["v1", "v1", "v2"] wS6 _ _ _ _
    (by
      intro vid hv
      simp at hv
      rcases hv with h | h <;> (subst h; exact ⟨_, rfl⟩))
    rfl "v1"

/-- C8: in list mode the script prints one line per volume (volume id,
its snapshot-id field or the No-snapshot marker, and the attachment
state, instance and device when attached), performs no mutating
gateway call, leaves the remote state untouched, and exits via
sys.exit(0) without running the creation or cleanup phases. -/
theorem list_mode_read_only (offset : Int) (args : Args) (s : AWS)
    (h : args.list_volumes = true) :
    run_script offset args s =
      (s, [], s.volumes.map print_volume_line, Except.error (Err.exited 0)) ∧
    script_exit_code (RunEnding.finished (Except.error (Err.exited 0))) = 0 := by
  constructor
  · simp only [run_script, h, if_true, print_volumes_infos]
  · rfl

/-- C8 witness: list mode on the two-volume state wS8. -/
theorem list_mode_read_only_witness :
    run_script 0 ⟨none, 30, true⟩ wS8 =
      (wS8, [], wS8.volumes.map print_volume_line, Except.error (Err.exited 0)) ∧
    script_exit_code (RunEnding.finished (Except.error (Err.exited 0))) = 0 :=
  list_mode_read_only 0 ⟨none, 30, true⟩ wS8 rfl

/-- C9: exit codes.  Success exits 0, sys.exit(1) paths and interrupts
exit 1, as the claim says; but an uncategorized error reaching the
top-level handler is logged and re-raised (line 339), so the process
exits with the interpreter status 1, not 2 - the sys.exit(2) on line
340 is dead code.  Concretely, cleaning up a tool-owned snapshot that
lacks an ExpirationTime tag raises NameError and the run exits 1. -/
theorem unexpected_error_exit_code :
    (run_script 0 ⟨some ["v1"], 30, false⟩ wS9).2.2.2 =
      Except.error (Err.raised (PyError.nameError "snapshot_id")) ∧
    script_exit_code
      (RunEnding.finished (run_script 0 ⟨some ["v1"], 30, false⟩ wS9).2.2.2) = 1 ∧
    ¬script_exit_code
      (RunEnding.finished (run_script 0 ⟨some ["v1"], 30, false⟩ wS9).2.2.2) = 2 ∧
    script_exit_code (RunEnding.finished (Except.ok ())) = 0 ∧
    script_exit_code (RunEnding.finished (Except.error (Err.exited 1))) = 1 ∧
    script_exit_code RunEnding.interruptRaised = 1 := by
  refine ⟨by decide, by decide, by decide, rfl, rfl, rfl⟩

/-- C10 witness: the snapshot created for the detached volume vol-2
carries the Name tag detached-vol-2. -/
theorem detached_volume_name_tag_witness :
    attach_instance_id wVolDet = "detached" ∧
    get_instance_hostname wS10 (attach_instance_id wVolDet) = "detached" ∧
    find_tag "Name" (snapshotTags (snapshot_volumes 30 wS10 [] ["vol-2"]).1
      (genSnapId wS10.nextSnapId)) = some ("detached-" ++ "vol-2") :=
  detached_volume_name_tag 30 wS10 [] "vol-2" wVolDet [] _ _ (by decide) (by decide) rfl
    (by decide) rfl
